import Mathlib

/-!
Verification development for the DocumentQuery chat backend
(`src/app/routes.py`, `src/app/file_storage.py`).

The streaming chat core is shallowly embedded: text is Lean `String`
(a packed `List Char`; Python `len`, `in`, `.lower()`, `.strip()` are
modelled on the character list), the Ollama gateway is an explicit
parameter describing one interaction outcome, the file store is the
message list of the one conversation touched by a call, and the SSE
stream is the list of emitted events.  Updates performed through
`FileStorage.update_last_message` are recorded in an explicit log.
-/

/-! ## Python text primitives -/

/-- Whitespace characters stripped by Python `str.strip()` (ASCII set). -/
def isWS (c : Char) : Bool :=
  c == ' ' || c == '\t' || c == '\n' || c == '\r' || c == '\x0b' || c == '\x0c'

/-- Python `s.strip()`: remove leading and trailing whitespace only. -/
def pyStrip (s : String) : String :=
  String.mk (((s.data.dropWhile isWS).reverse.dropWhile isWS).reverse)

/-- Python `s.lower()` (ASCII case folding). -/
def lowerStr (s : String) : String :=
  String.mk (s.data.map Char.toLower)

/-- Does `needle` start `hay`? (helper for the Python `in` operator). -/
def startsWithList : List Char → List Char → Bool
  | [], _ => true
  | _ :: _, [] => false
  | a :: as, b :: bs => a == b && startsWithList as bs

/-- Occurrence of `needle` anywhere in `hay` (Python `needle in hay`). -/
def containsList (needle : List Char) : List Char → Bool
  | [] => needle.isEmpty
  | b :: bs => startsWithList needle (b :: bs) || containsList needle bs

/-- Python `needle in hay` on strings. -/
def strContains (hay needle : String) : Bool :=
  containsList needle.data hay.data

/-- Python `sep.join(parts)`. -/
def pyJoin (sep : String) : List String → String
  | [] => ""
  | [s] => s
  | s :: rest => s ++ sep ++ pyJoin sep rest

/-- Left-fold concatenation, as `full_response` accumulates tokens. -/
def concatList (l : List String) : String :=
  l.foldl (· ++ ·) ""

/-- Python `l[-n:]`: the last `n` elements. -/
def lastN {α : Type} (n : Nat) (l : List α) : List α :=
  l.drop (l.length - n)

/-! ## Grounding verifier (`stream_chat_response`, routes.py lines 510-525) -/

/-- A character matched by the regex class `["\']`. -/
def quoteChar (c : Char) : Bool :=
  c == '"' || c == '\x27'

/-- After an opening quote, does a closing quote occur before the next
newline?  (`.*` in Python `re` does not cross `'\n'`.) -/
def closeQuote : List Char → Bool
  | [] => false
  | c :: cs => if c == '\n' then false else (quoteChar c || closeQuote cs)

/-- `re.search(r'["\x27].*["\x27]', s)` succeeds: some opening quote is
followed by another quote on the same line. -/
def regexQuoted : List Char → Bool
  | [] => false
  | c :: cs => (quoteChar c && closeQuote cs) || regexQuoted cs

/-- The quoted-substring disjunct of the verifier. -/
def hasQuotedPair (s : String) : Bool :=
  regexQuoted s.data

/-- `has_document_reference` from routes.py lines 511-518. -/
def hasDocumentReference (t : String) : Bool :=
  decide (t.length > 50) &&
    (strContains (lowerStr t) "document" ||
     strContains (lowerStr t) "according to" ||
     strContains (lowerStr t) "the text" ||
     strContains (lowerStr t) "states that" ||
     strContains (lowerStr t) "mentions" ||
     hasQuotedPair t)

/-- `is_refusal` from routes.py lines 520-525. -/
def isRefusal (t : String) : Bool :=
  strContains (lowerStr t) "cannot answer" ||
  strContains (lowerStr t) "not present in" ||
  strContains (lowerStr t) "not found in" ||
  strContains (lowerStr t) "information is not"

/-! ## Fixed texts of the chat core -/

/-- Single-document refusal message (routes.py line 434). -/
def refusalMessage : String :=
  "I cannot answer questions about this document because it appears to be empty or contains insufficient content. Please upload a document with readable text."

/-- Multi-document refusal message (routes.py line 640). -/
def multiRefusalMessage : String :=
  "I cannot answer questions about these documents because they appear to be empty or contain insufficient content. Please upload documents with readable text."

/-- The fixed greeting set (routes.py lines 444 and 650). -/
def greetingPatterns : List String :=
  ["hi", "hey", "hello", "greetings", "howdy", "sup", "hiya"]

/-- Greeting detection: the stripped, lowercased question equals a
pattern, optionally with a trailing "!" (routes.py lines 445-446). -/
def isGreeting (question : String) : Bool :=
  greetingPatterns.any fun p =>
    lowerStr (pyStrip question) == p || lowerStr (pyStrip question) == p ++ "!"

/-- Canned single-document engagement response (routes.py line 449). -/
def greetingResponse : String :=
  "What can I tell you about the document?"

/-- One document record of the store (id is irrelevant to the core). -/
structure Document where
  name : String
  content : String
deriving DecidableEq

/-- Canned multi-document engagement response (routes.py lines 655-656). -/
def multiGreetingResponse (valid : List Document) : String :=
  "What can I tell you about these documents: " ++
    pyJoin ", " (valid.map fun d => "\"" ++ d.name ++ "\"") ++ "?"

/-- The warning suffix appended by the grounding policy (routes.py line 529). -/
def warningMessage : String :=
  "\n\n⚠️ Note: This response may not be based solely on the document content. Please verify the information against the source document."

/-- The exclusion notice for multi-doc calls (routes.py lines 665-666). -/
def exclusionNotice (excluded : List Document) (validCount : Nat) : String :=
  "⚠️ Note: " ++ toString excluded.length ++
    " document(s) were excluded due to insufficient content: " ++
    pyJoin ", " (excluded.map fun d => "\"" ++ d.name ++ "\"") ++
    "\n\nAnalyzing remaining " ++ toString validCount ++ " document(s):\n\n"

/-- Exception message raised on a non-200 gateway status (line 496). -/
def ollamaApiError (code : Nat) : String :=
  "Ollama API error: " ++ toString code

/-- Error-event content produced by the except branch (line 540). -/
def streamErrMsg (msg : String) : String :=
  "Error during streaming: " ++ msg

/-! ## Stream protocol, gateway, store -/

/-- One SSE event of the chat protocol (`data: {...}` line). -/
inductive Event where
  | messageId (id : String)
  | token (content : String)
  | error (content : String)
  | done
deriving DecidableEq

def Event.isDone : Event → Bool
  | .done => true
  | _ => false

def Event.isMsgId : Event → Bool
  | .messageId _ => true
  | _ => false

/-- Outcome of one `POST /api/generate` interaction.  A line is
`some s` when it parsed to JSON with a `response` field `s`, and
`none` for blank/malformed lines or objects without that field (the
code skips those).  `failDuring` is an exception thrown after the
listed lines were already consumed; `badStatus` is a non-200 reply. -/
inductive GatewayResult where
  | ok (lines : List (Option String))
  | badStatus (code : Nat)
  | failDuring (lines : List (Option String)) (msg : String)
deriving DecidableEq

/-- The token texts relayed for a line list: present and non-empty
(`if "response" in data and data["response"]`). -/
def gwTokens (lines : List (Option String)) : List String :=
  (lines.filterMap id).filter fun s => !(s == "")

/-- Did the gateway interaction end in an exception? -/
def gwFails : GatewayResult → Bool
  | .ok _ => false
  | .badStatus _ => true
  | .failDuring _ _ => true

/-- One conversation message (only the fields the chat core touches). -/
structure Msg where
  role : String
  content : String
deriving DecidableEq

/-- What one stream-generator run produced: the emitted events, the log
of `update_last_message` contents (in call order), and the prompt sent
to the gateway when a generate call was made. -/
structure ChatOutcome where
  events : List Event
  updates : List String
  prompt : Option String
deriving DecidableEq

/-! ## Prompt builders (routes.py lines 455-486 and 670-710) -/

/-- `"\n".join(f"{role}: {content}")` over the context window. -/
def contextHistory (hist : List Msg) : String :=
  pyJoin "\n" (hist.map fun m => m.role ++ ": " ++ m.content)

/-- The single-document prompt template (routes.py lines 462-486). -/
def singlePrompt (doc : Document) (hist : List Msg) (question : String) : String :=
  "SYSTEM INSTRUCTIONS:\nYou are a document analysis assistant. Your ONLY role is to answer questions based strictly on the content of the provided document.\n\nSTRICT RULES:\n1. ONLY answer questions that can be answered using information found in the document below\n2. If a question is out of scope (not related to document content), politely redirect the user to ask about the document and provide 2-3 relevant example questions based on the document content\n3. ALWAYS cite specific passages or sections from the document when answering\n4. DO NOT use external knowledge, general facts, or information not present in the document\n5. If the question is unclear or ambiguous, ask the user to clarify\n6. If multiple interpretations are possible based on the document, present all relevant perspectives found in the document\n\nDOCUMENT NAME: " ++
  doc.name ++ "\n\nDOCUMENT CONTENT:\n" ++ doc.content ++
  "\n\nCONVERSATION HISTORY:\n" ++ contextHistory hist ++
  "\n\nUSER QUESTION: " ++ question ++
  "\n\nRESPONSE INSTRUCTIONS:\n- If the question IS about the document: Answer using ONLY information from the document and cite specific passages\n- If the question is NOT about the document or out of scope: Respond with \"I can only answer questions about " ++
  doc.name ++ ". Here are some questions you could ask:\" followed by 2-3 relevant example questions based on the document\x27s actual content\n- Be precise, helpful, and stay within the document\x27s scope"

/-- `document_list` of the multi-doc prompt (routes.py lines 671-674). -/
def documentList (valid : List Document) : String :=
  pyJoin ", " (valid.enum.map fun p =>
    "[Document " ++ toString (p.1 + 1) ++ ": \"" ++ p.2.name ++ "\"]")

/-- `combined_content` of the multi-doc prompt (routes.py lines 676-679). -/
def combinedContent (valid : List Document) : String :=
  pyJoin "\n\n" (valid.enum.map fun p =>
    "=== DOCUMENT " ++ toString (p.1 + 1) ++ ": \"" ++ p.2.name ++ "\" ===\n" ++
    p.2.content ++ "\n=== END OF DOCUMENT " ++ toString (p.1 + 1) ++ " ===")

/-- The multi-document prompt template (routes.py lines 684-710). -/
def multiPrompt (valid : List Document) (hist : List Msg) (question : String) : String :=
  "SYSTEM INSTRUCTIONS:\nYou are a multi-document analysis assistant. Your ONLY role is to answer questions based strictly on the content of the provided documents.\n\nSTRICT RULES:\n1. ONLY answer questions using information found in the documents below\n2. ALWAYS specify which document(s) you\x27re referencing (use document numbers and names)\n3. If a question is out of scope (not related to document content), politely redirect the user to ask about the documents and provide 2-3 relevant example questions based on the documents\x27 actual content\n4. When comparing documents, only compare information that is actually present in the documents\n5. DO NOT make assumptions or use external knowledge not found in the documents\n6. If documents contradict each other, acknowledge both perspectives and cite the specific documents\n7. When information spans multiple documents, clearly attribute each piece of information to its source\n\nAVAILABLE DOCUMENTS:\n" ++
  documentList valid ++ "\n\nDOCUMENT CONTENTS:\n" ++ combinedContent valid ++
  "\n\nCONVERSATION HISTORY:\n" ++ contextHistory hist ++
  "\n\nUSER QUESTION: " ++ question ++
  "\n\nRESPONSE INSTRUCTIONS:\n- If the question IS about the documents: Answer using ONLY information from the documents and cite which document you\x27re referencing (e.g., \"According to Document 1 (filename.pdf)...\")\n- If the question is NOT about the documents or out of scope: Respond with \"I can only answer questions about these documents. Here are some questions you could ask:\" followed by 2-3 relevant example questions based on the documents\x27 actual content\n- Be precise, helpful, and stay within the documents\x27 scope"

/-! ## Stream generators -/

/-- The content-threshold test of routes.py line 433 (also, negated,
the multi-doc validity filter of lines 629-637): content falsy, or
stripped content falsy, or stripped length below 10. -/
def contentShort (content : String) : Bool :=
  content == "" || pyStrip content == "" || decide ((pyStrip content).length < 10)

/-- Multi-doc validity: the document survives the content filter. -/
def contentOK (d : Document) : Bool :=
  !(contentShort d.content)

/-- Shallow embedding of `stream_chat_response` (routes.py 423-543):
events yielded, update-last-message log, and the prompt if a generate
call was opened.  Exceptions are modelled as coming from the gateway
interaction (the only fallible collaborator in the body). -/
def streamChatResponse (doc : Document) (question : String)
    (gw : GatewayResult) (hist : List Msg) : ChatOutcome :=
  if contentShort doc.content then
    ⟨[.token refusalMessage, .done], [refusalMessage], none⟩
  else if isGreeting question then
    ⟨[.token greetingResponse, .done], [greetingResponse], none⟩
  else
    match gw with
    | .ok lines =>
      let toks := gwTokens lines
      let full := concatList toks
      if !(hasDocumentReference full) && !(isRefusal full) && decide (full.length > 20) then
        ⟨toks.map Event.token ++ [.token warningMessage, .done],
         [full ++ warningMessage], some (singlePrompt doc hist question)⟩
      else
        ⟨toks.map Event.token ++ [.done], [full], some (singlePrompt doc hist question)⟩
    | .badStatus code =>
      ⟨[.error (streamErrMsg (ollamaApiError code)), .done], [],
       some (singlePrompt doc hist question)⟩
    | .failDuring lines msg =>
      ⟨(gwTokens lines).map Event.token ++ [.error (streamErrMsg msg), .done], [],
       some (singlePrompt doc hist question)⟩

/-- `valid_content_documents` of routes.py lines 629-632. -/
def validDocs (docs : List Document) : List Document :=
  docs.filter contentOK

/-- `excluded_docs` of routes.py lines 634-637. -/
def excludedDocs (docs : List Document) : List Document :=
  docs.filter fun d => !(contentOK d)

/-- `warning_prefix` of routes.py lines 663-666. -/
def multiPre (docs : List Document) : String :=
  if (excludedDocs docs).isEmpty then ""
  else exclusionNotice (excludedDocs docs) (validDocs docs).length

/-- The exclusion-notice token events (one, or none) of line 667. -/
def multiPreEvents (docs : List Document) : List Event :=
  if (excludedDocs docs).isEmpty then []
  else [.token (exclusionNotice (excludedDocs docs) (validDocs docs).length)]

/-- Shallow embedding of `stream_multi_chat_response` (routes.py
619-743).  Note: this path performs no grounding verification. -/
def streamMultiChatResponse (docs : List Document) (question : String)
    (gw : GatewayResult) (hist : List Msg) : ChatOutcome :=
  if (validDocs docs).isEmpty then
    ⟨[.token multiRefusalMessage, .done], [multiRefusalMessage], none⟩
  else if isGreeting question then
    ⟨[.token (multiGreetingResponse (validDocs docs)), .done],
     [multiGreetingResponse (validDocs docs)], none⟩
  else
    match gw with
    | .ok lines =>
      ⟨multiPreEvents docs ++ (gwTokens lines).map Event.token ++ [.done],
       [multiPre docs ++ concatList (gwTokens lines)],
       some (multiPrompt (validDocs docs) hist question)⟩
    | .badStatus code =>
      ⟨multiPreEvents docs ++ [.error (streamErrMsg (ollamaApiError code)), .done], [],
       some (multiPrompt (validDocs docs) hist question)⟩
    | .failDuring lines msg =>
      ⟨multiPreEvents docs ++ (gwTokens lines).map Event.token ++
         [.error (streamErrMsg msg), .done],
       [], some (multiPrompt (validDocs docs) hist question)⟩

/-! ## Endpoint level (`chat` and `multi_chat`, routes.py 545-617, 745-823) -/

/-- Python truthiness of an optional string (`None` and `""` are falsy). -/
def optTruthy : Option String → Bool
  | none => false
  | some s => !(s == "")

/-- Model resolution of routes.py lines 585-590. -/
def resolveModel (reqModel envModel : Option String) : Option String :=
  if !(optTruthy reqModel) && !(optTruthy envModel) then none
  else
    let m := if optTruthy reqModel then reqModel else envModel
    if optTruthy m then m else none

/-- `FileStorage.update_last_message` on the message list: set the
content of the last message (no-op on an empty list is handled at the
call site). -/
def updateLast : List Msg → String → List Msg
  | [], _ => []
  | [m], c => [⟨m.role, c⟩]
  | m :: m' :: rest, c => m :: updateLast (m' :: rest) c

/-- Apply one logged `update_last_message` call: it only writes when
the conversation exists and has messages (file_storage.py 196-209). -/
def applyUpd (convExists : Bool) (msgs : List Msg) (c : String) : List Msg :=
  if convExists && !msgs.isEmpty then updateLast msgs c else msgs

/-- Result of a chat endpoint call: a pre-stream HTTP failure, or a
stream together with the conversation's final message list. -/
inductive ChatResult where
  | httpError (status : Nat) (detail : String)
  | stream (events : List Event) (finalMessages : List Msg)
deriving DecidableEq

def ChatResult.statusOf : ChatResult → Option Nat
  | .httpError s _ => some s
  | .stream _ _ => none

def ChatResult.eventsOf : ChatResult → List Event
  | .httpError _ _ => []
  | .stream evs _ => evs

/-- Shallow embedding of the `chat` endpoint (routes.py 545-617).
`docLookup` is the store's answer for `request.documentId`;
`conversationId`/`convExists0`/`msgs0` describe the supplied
conversation id and the store's state for it; `asstId` is the id the
store would assign to the assistant placeholder.  When the referenced
conversation does not exist, `add_message` and `update_last_message`
return `None` and write nothing, and the `message_id` event is skipped
(routes.py 594-595).  (On the no-model 400 path the two appended
messages are persisted by the real store before the failure; the
embedding returns only the HTTP failure for that path.) -/
def chatRun (docLookup : Option Document) (conversationId : Option String)
    (convExists0 : Bool) (msgs0 : List Msg) (question : String)
    (reqModel envModel : Option String) (asstId : String)
    (gw : GatewayResult) : ChatResult :=
  if question == "" then .httpError 400 "Question is required"
  else
    match docLookup with
    | none => .httpError 404 "Document not found"
    | some doc =>
      let convExists := conversationId.isNone || convExists0
      let base : List Msg := if conversationId.isNone then [] else msgs0
      let msgs1 := if convExists then base ++ [⟨"user", question⟩] else base
      let ctx := if convExists then lastN 6 msgs1 else []
      let msgs2 := if convExists then msgs1 ++ [⟨"assistant", ""⟩] else msgs1
      match resolveModel reqModel envModel with
      | none => .httpError 400 "No model specified. Please select a model from the dropdown."
      | some _ =>
        let inner := streamChatResponse doc question gw ctx
        let events := (if convExists then [Event.messageId asstId] else []) ++ inner.events
        let finalMsgs := inner.updates.foldl (applyUpd convExists) msgs2
        .stream events finalMsgs

/-- Shallow embedding of the `multi_chat` endpoint (routes.py 745-823).
`docLookups` lists the store's answer per requested document id (the
404 detail names the missing id; the embedding keeps a fixed detail). -/
def multiChatRun (docLookups : List (Option Document)) (conversationId : Option String)
    (convExists0 : Bool) (msgs0 : List Msg) (question : String)
    (reqModel envModel : Option String) (asstId : String)
    (gw : GatewayResult) : ChatResult :=
  if question == "" then .httpError 400 "Question is required"
  else if docLookups.isEmpty then .httpError 400 "Document IDs are required"
  else if docLookups.any Option.isNone then .httpError 404 "Document not found"
  else
    let docs := docLookups.filterMap id
    let convExists := conversationId.isNone || convExists0
    let base : List Msg := if conversationId.isNone then [] else msgs0
    let msgs1 := if convExists then base ++ [⟨"user", question⟩] else base
    let ctx := if convExists then lastN 6 msgs1 else []
    let msgs2 := if convExists then msgs1 ++ [⟨"assistant", ""⟩] else msgs1
    match resolveModel reqModel envModel with
    | none => .httpError 400 "No model specified. Please select a model from the dropdown."
    | some _ =>
      let inner := streamMultiChatResponse docs question gw ctx
      let events := (if convExists then [Event.messageId asstId] else []) ++ inner.events
      let finalMsgs := inner.updates.foldl (applyUpd convExists) msgs2
      .stream events finalMsgs

/-! ## Stream-shape checker (spec §6/§8.6), used by the ordering claim -/

/-- After an error event only a single done may follow. -/
def afterErrorOk : List Event → Bool
  | [.done] => true
  | _ => false

/-- Zero or more tokens, then zero or one error, then exactly one
terminal done. -/
def tokensThen : List Event → Bool
  | [] => false
  | .done :: rest => rest.isEmpty
  | .error _ :: rest => afterErrorOk rest
  | .token _ :: rest => tokensThen rest
  | .messageId _ :: _ => false

/-- Exactly one leading message_id, then `tokensThen`. -/
def wellFormedStream : List Event → Bool
  | .messageId _ :: rest => tokensThen rest
  | _ => false

example : wellFormedStream [.messageId "m", .token "a", .token "b", .done] = true := by decide
example : wellFormedStream [.messageId "m", .token "a", .error "e", .done] = true := by decide
example : wellFormedStream [.token "a", .done] = false := by decide
example : wellFormedStream [.messageId "m", .done, .token "a"] = false := by decide

/-! ## Spec-side formulations (from the spec's words, for comparison) -/

/-- Spec-side "contains": the needle occurs inside the hay. -/
def containsSpec (hay needle : String) : Prop :=
  needle.data <:+: hay.data

/-- Spec-side "contains any quoted substring": two quote characters
with no newline between them. -/
def quotedSpec (t : String) : Prop :=
  ∃ pre mid post q₁ q₂, t.data = pre ++ q₁ :: (mid ++ q₂ :: post) ∧
    (q₁ = '"' ∨ q₁ = '\x27') ∧ (q₂ = '"' ∨ q₂ = '\x27') ∧ '\n' ∉ mid

/-- Spec-side `has_document_reference` for the single-document path. -/
def hdrSpec (t : String) : Prop :=
  t.length > 50 ∧
    (containsSpec (lowerStr t) "document" ∨ containsSpec (lowerStr t) "according to" ∨
     containsSpec (lowerStr t) "the text" ∨ containsSpec (lowerStr t) "states that" ∨
     containsSpec (lowerStr t) "mentions" ∨ quotedSpec t)

/-- Spec-side `is_refusal`. -/
def refusalSpec (t : String) : Prop :=
  containsSpec (lowerStr t) "cannot answer" ∨ containsSpec (lowerStr t) "not present in" ∨
  containsSpec (lowerStr t) "not found in" ∨ containsSpec (lowerStr t) "information is not"

/-! ## Characterization lemmas for the text primitives -/

theorem startsWithList_iff (n : List Char) : ∀ h : List Char,
    startsWithList n h = true ↔ n <+: h := by
  induction n with
  | nil =>
    intro h
    simp only [startsWithList, true_iff]
    exact List.nil_prefix
  | cons a as ih =>
    intro h
    cases h with
    | nil => simp [startsWithList, List.prefix_nil]
    | cons b bs =>
      simp only [startsWithList, Bool.and_eq_true, beq_iff_eq, ih, List.cons_prefix_cons]

theorem containsList_iff (n : List Char) : ∀ h : List Char,
    containsList n h = true ↔ n <:+: h := by
  intro h
  induction h with
  | nil => simp [containsList, List.isEmpty_iff, List.infix_nil]
  | cons b bs ih =>
    simp [containsList, Bool.or_eq_true, startsWithList_iff, ih, List.infix_cons_iff]

theorem strContains_iff (hay needle : String) :
    strContains hay needle = true ↔ containsSpec hay needle := by
  simp [strContains, containsSpec, containsList_iff]

theorem quoteChar_iff (c : Char) : quoteChar c = true ↔ c = '"' ∨ c = '\x27' := by
  simp [quoteChar, Bool.or_eq_true, beq_iff_eq]

theorem closeQuote_iff (cs : List Char) :
    closeQuote cs = true ↔
      ∃ mid q post, cs = mid ++ q :: post ∧ quoteChar q = true ∧ '\n' ∉ mid := by
  induction cs with
  | nil =>
    simp only [closeQuote, Bool.false_eq_true, false_iff]
    rintro ⟨mid, q, post, heq, -, -⟩
    exact (List.cons_ne_nil q post) (List.append_eq_nil.mp heq.symm).2
  | cons c cs ih =>
    by_cases hc : c = '\n'
    · subst hc
      simp only [show closeQuote ('\n' :: cs) = false from rfl, Bool.false_eq_true, false_iff]
      rintro ⟨mid, q, post, heq, hq, hmem⟩
      cases mid with
      | nil =>
        simp only [List.nil_append] at heq
        injection heq with h1 h2
        subst h1
        simp [quoteChar] at hq
      | cons m ms =>
        simp only [List.cons_append] at heq
        injection heq with h1 h2
        exact hmem (by rw [h1]; exact List.mem_cons_self m ms)
    · have hstep : closeQuote (c :: cs) = (quoteChar c || closeQuote cs) := by
        rw [closeQuote]
        simp [hc]
      rw [hstep]
      simp only [Bool.or_eq_true]
      constructor
      · rintro (hq | hrest)
        · exact ⟨[], c, cs, rfl, hq, by simp⟩
        · obtain ⟨mid, q, post, heq, hq, hmem⟩ := ih.mp hrest
          exact ⟨c :: mid, q, post, by simp [heq], hq, by
            simp only [List.mem_cons, not_or]
            exact ⟨fun h => hc h.symm, hmem⟩⟩
      · rintro ⟨mid, q, post, heq, hq, hmem⟩
        cases mid with
        | nil =>
          simp only [List.nil_append] at heq
          injection heq with h1 h2
          subst h1
          exact Or.inl hq
        | cons m ms =>
          simp only [List.cons_append] at heq
          injection heq with h1 h2
          exact Or.inr (ih.mpr ⟨ms, q, post, h2, hq, fun h => hmem (List.mem_cons_of_mem m h)⟩)

theorem regexQuoted_iff (xs : List Char) :
    regexQuoted xs = true ↔
      ∃ pre q rest, xs = pre ++ q :: rest ∧ quoteChar q = true ∧ closeQuote rest = true := by
  induction xs with
  | nil =>
    simp only [regexQuoted, Bool.false_eq_true, false_iff]
    rintro ⟨pre, q, rest, heq, -, -⟩
    exact (List.cons_ne_nil q rest) (List.append_eq_nil.mp heq.symm).2
  | cons c cs ih =>
    rw [regexQuoted]
    simp only [Bool.or_eq_true, Bool.and_eq_true]
    constructor
    · rintro (⟨hq, hcl⟩ | hrest)
      · exact ⟨[], c, cs, rfl, hq, hcl⟩
      · obtain ⟨pre, q, rest, heq, hq, hcl⟩ := ih.mp hrest
        exact ⟨c :: pre, q, rest, by simp [heq], hq, hcl⟩
    · rintro ⟨pre, q, rest, heq, hq, hcl⟩
      cases pre with
      | nil =>
        simp only [List.nil_append] at heq
        injection heq with h1 h2
        subst h1
        subst h2
        exact Or.inl ⟨hq, hcl⟩
      | cons p ps =>
        simp only [List.cons_append] at heq
        injection heq with h1 h2
        exact Or.inr (ih.mpr ⟨ps, q, rest, h2, hq, hcl⟩)

theorem hasQuotedPair_iff (t : String) : hasQuotedPair t = true ↔ quotedSpec t := by
  rw [hasQuotedPair, regexQuoted_iff]
  constructor
  · rintro ⟨pre, q, rest, heq, hq, hcl⟩
    obtain ⟨mid, q₂, post, heq2, hq2, hmem⟩ := (closeQuote_iff rest).mp hcl
    exact ⟨pre, mid, post, q, q₂, by rw [heq, heq2], (quoteChar_iff q).mp hq,
      (quoteChar_iff q₂).mp hq2, hmem⟩
  · rintro ⟨pre, mid, post, q₁, q₂, heq, hq1, hq2, hmem⟩
    exact ⟨pre, q₁, mid ++ q₂ :: post, heq, (quoteChar_iff q₁).mpr hq1,
      (closeQuote_iff _).mpr ⟨mid, q₂, post, rfl, (quoteChar_iff q₂).mpr hq2, hmem⟩⟩

theorem hasDocumentReference_iff (t : String) :
    hasDocumentReference t = true ↔ hdrSpec t := by
  simp [hasDocumentReference, hdrSpec, Bool.and_eq_true, Bool.or_eq_true,
    decide_eq_true_eq, strContains_iff, hasQuotedPair_iff, or_assoc]

theorem isRefusal_iff (t : String) : isRefusal t = true ↔ refusalSpec t := by
  simp [isRefusal, refusalSpec, Bool.or_eq_true, strContains_iff, or_assoc]

/-! ## Helper lemmas: infixes of concatenations and joins -/

theorem infixOfAppendLeft {n y : List Char} (x : List Char) (h : n <:+: y) : n <:+: x ++ y := by
  obtain ⟨s, t, hst⟩ := h
  exact ⟨x ++ s, t, by rw [← hst]; simp [List.append_assoc]⟩

theorem infixOfAppendRight {n x : List Char} (h : n <:+: x) (y : List Char) : n <:+: x ++ y := by
  obtain ⟨s, t, hst⟩ := h
  exact ⟨s, t ++ y, by rw [← hst]; simp [List.append_assoc]⟩

theorem mem_pyJoin_infix (sep : String) (s : String) : ∀ l : List String,
    s ∈ l → s.data <:+: (pyJoin sep l).data := by
  intro l
  induction l with
  | nil => intro h; cases h
  | cons a rest ih =>
    intro h
    cases rest with
    | nil =>
      rcases List.mem_cons.mp h with h1 | h1
      · subst h1; exact ⟨[], [], by simp [pyJoin]⟩
      · cases h1
    | cons b rest' =>
      rcases List.mem_cons.mp h with h1 | h1
      · subst h1
        show s.data <:+: (s ++ sep ++ pyJoin sep (b :: rest')).data
        simp only [String.data_append]
        exact ((List.prefix_append s.data _).trans (by rw [List.append_assoc])).isInfix
      · show s.data <:+: (a ++ sep ++ pyJoin sep (b :: rest')).data
        simp only [String.data_append]
        exact infixOfAppendLeft _ (ih h1)

/-! ## Helper lemmas: stream shapes -/

theorem tokensThen_map_token (ts : List String) (rest : List Event) :
    tokensThen (ts.map Event.token ++ rest) = tokensThen rest := by
  induction ts with
  | nil => rfl
  | cons a as ih => simpa [tokensThen] using ih

theorem countP_map_token (p : Event → Bool) (ts : List String) :
    (ts.map Event.token).countP p = (ts.map fun t => p (Event.token t)).countP id := by
  induction ts with
  | nil => rfl
  | cons a as ih => simp [List.countP_cons, ih]

theorem countDone_map_token (ts : List String) :
    (ts.map Event.token).countP Event.isDone = 0 := by
  induction ts with
  | nil => rfl
  | cons a as ih => simp [List.countP_cons, Event.isDone, ih]

theorem countMsgId_map_token (ts : List String) :
    (ts.map Event.token).countP Event.isMsgId = 0 := by
  induction ts with
  | nil => rfl
  | cons a as ih => simp [List.countP_cons, Event.isMsgId, ih]

/-- Every single-document stream body matches the token/error/done shape. -/
theorem single_tokensThen (d : Document) (q : String) (g : GatewayResult) (h : List Msg) :
    tokensThen (streamChatResponse d q g h).events = true := by
  unfold streamChatResponse
  split
  · rfl
  · split
    · rfl
    · cases g with
      | ok lines =>
        simp only
        split
        · rw [tokensThen_map_token]; rfl
        · rw [tokensThen_map_token]; rfl
      | badStatus code => rfl
      | failDuring lines msg =>
        simp only
        rw [tokensThen_map_token]
        rfl

theorem tokensThen_multiPreEvents (docs : List Document) (rest : List Event) :
    tokensThen (multiPreEvents docs ++ rest) = tokensThen rest := by
  unfold multiPreEvents
  split
  · rfl
  · simp [tokensThen]

/-- Every multi-document stream body matches the token/error/done shape. -/
theorem multi_tokensThen (ds : List Document) (q : String) (g : GatewayResult) (h : List Msg) :
    tokensThen (streamMultiChatResponse ds q g h).events = true := by
  unfold streamMultiChatResponse
  split
  · rfl
  · split
    · rfl
    · cases g with
      | ok lines =>
        show tokensThen (multiPreEvents ds ++ (gwTokens lines).map Event.token ++ [.done]) = true
        rw [List.append_assoc, tokensThen_multiPreEvents, tokensThen_map_token]
        rfl
      | badStatus code =>
        show tokensThen (multiPreEvents ds ++ [.error (streamErrMsg (ollamaApiError code)), .done]) = true
        rw [tokensThen_multiPreEvents]
        rfl
      | failDuring lines msg =>
        show tokensThen (multiPreEvents ds ++ (gwTokens lines).map Event.token ++
          [.error (streamErrMsg msg), .done]) = true
        rw [List.append_assoc, tokensThen_multiPreEvents, tokensThen_map_token]
        rfl

/-! ## Helper lemmas: content threshold -/

/-- The three-way Python test of line 433 collapses to one stripped-length
comparison. -/
theorem contentShort_iff (c : String) :
    contentShort c = true ↔ (pyStrip c).length < 10 := by
  simp only [contentShort, Bool.or_eq_true, beq_iff_eq, decide_eq_true_eq]
  constructor
  · rintro ((h1 | h1) | h1)
    · subst h1; decide
    · rw [h1]; decide
    · exact h1
  · intro h
    exact Or.inr h

/-! ## Helper lemmas: terminal done event -/

theorem getLast_concat_done (l : List Event) :
    (l ++ [Event.done]).getLast? = some Event.done :=
  List.getLast?_concat l

theorem getLast_two_done (l : List Event) (a : Event) :
    (l ++ [a, Event.done]).getLast? = some Event.done := by
  rw [show l ++ [a, Event.done] = (l ++ [a]) ++ [Event.done] by simp]
  exact List.getLast?_concat _

theorem countDone_multiPreEvents (ds : List Document) :
    (multiPreEvents ds).countP Event.isDone = 0 := by
  unfold multiPreEvents
  split <;> rfl

/-- Every single-document stream ends in `done`, emitted exactly once. -/
theorem single_done_terminal (d : Document) (q : String) (g : GatewayResult) (h : List Msg) :
    (streamChatResponse d q g h).events.getLast? = some Event.done ∧
    (streamChatResponse d q g h).events.countP Event.isDone = 1 := by
  unfold streamChatResponse
  split
  · exact ⟨rfl, rfl⟩
  · split
    · exact ⟨rfl, rfl⟩
    · cases g with
      | ok lines =>
        simp only
        split
        · exact ⟨getLast_two_done _ _, by
            simp [List.countP_append, countDone_map_token, List.countP_cons, Event.isDone]⟩
        · exact ⟨getLast_concat_done _, by
            simp [List.countP_append, countDone_map_token, List.countP_cons, Event.isDone]⟩
      | badStatus code => exact ⟨rfl, rfl⟩
      | failDuring lines msg =>
        exact ⟨getLast_two_done _ _, by
          simp [List.countP_append, countDone_map_token, List.countP_cons, Event.isDone]⟩

/-- Every multi-document stream ends in `done`, emitted exactly once. -/
theorem multi_done_terminal (ds : List Document) (q : String) (g : GatewayResult) (h : List Msg) :
    (streamMultiChatResponse ds q g h).events.getLast? = some Event.done ∧
    (streamMultiChatResponse ds q g h).events.countP Event.isDone = 1 := by
  unfold streamMultiChatResponse
  split
  · exact ⟨rfl, rfl⟩
  · split
    · exact ⟨rfl, rfl⟩
    · cases g with
      | ok lines =>
        refine ⟨getLast_concat_done _, ?_⟩
        simp [List.countP_append, countDone_map_token, countDone_multiPreEvents,
          List.countP_cons, Event.isDone]
      | badStatus code =>
        refine ⟨getLast_two_done _ _, ?_⟩
        simp [List.countP_append, countDone_multiPreEvents, List.countP_cons, Event.isDone]
      | failDuring lines msg =>
        refine ⟨getLast_two_done _ _, ?_⟩
        simp [List.countP_append, countDone_map_token, countDone_multiPreEvents,
          List.countP_cons, Event.isDone]

/-- The stream body never emits a `message_id` event. -/
theorem single_no_msgId (d : Document) (q : String) (g : GatewayResult) (h : List Msg) :
    (streamChatResponse d q g h).events.countP Event.isMsgId = 0 := by
  unfold streamChatResponse
  split
  · rfl
  · split
    · rfl
    · cases g with
      | ok lines =>
        simp only
        split
        · simp [List.countP_append, countMsgId_map_token, List.countP_cons, Event.isMsgId]
        · simp [List.countP_append, countMsgId_map_token, List.countP_cons, Event.isMsgId]
      | badStatus code => rfl
      | failDuring lines msg =>
        simp [List.countP_append, countMsgId_map_token, List.countP_cons, Event.isMsgId]

/-! ## Helper lemmas: the update-last-message log -/

/-- Each path of the single stream performs at most one store update. -/
theorem single_updates_len (d : Document) (q : String) (g : GatewayResult) (h : List Msg) :
    (streamChatResponse d q g h).updates.length ≤ 1 := by
  unfold streamChatResponse
  split
  · simp
  · split
    · simp
    · cases g with
      | ok lines =>
        simp only
        split <;> simp
      | badStatus code => simp
      | failDuring lines msg => simp

/-- The single stream skips the store update exactly on gateway-error
paths reached after validation. -/
theorem single_updates_nil_iff (d : Document) (q : String) (g : GatewayResult) (h : List Msg) :
    (streamChatResponse d q g h).updates = [] ↔
      (contentShort d.content = false ∧ isGreeting q = false ∧ gwFails g = true) := by
  unfold streamChatResponse
  split
  next hc => simp [hc]
  next hc =>
    split
    next hg => simp [hg]
    next hg =>
      rw [Bool.not_eq_true] at hc hg
      cases g with
      | ok lines =>
        simp only
        split <;> simp [hc, hg, gwFails]
      | badStatus code => simp [hc, hg, gwFails]
      | failDuring lines msg => simp [hc, hg, gwFails]

/-! ## Helper lemmas: store updates at the endpoint -/

theorem updateLast_append (l : List Msg) (m : Msg) (c : String) :
    updateLast (l ++ [m]) c = l ++ [⟨m.role, c⟩] := by
  induction l with
  | nil => rfl
  | cons a l ih =>
    cases l with
    | nil => rfl
    | cons b l' =>
      show a :: updateLast ((b :: l') ++ [m]) c = a :: ((b :: l') ++ [⟨m.role, c⟩])
      rw [ih]

theorem foldl_applyUpd_false (us : List String) (msgs : List Msg) :
    us.foldl (applyUpd false) msgs = msgs := by
  induction us generalizing msgs with
  | nil => rfl
  | cons u us ih =>
    show us.foldl (applyUpd false) (applyUpd false msgs u) = msgs
    rw [show applyUpd false msgs u = msgs from rfl]
    exact ih msgs

/-- Folding an at-most-singleton update log over a nonempty message list
rewrites the final message's content to the logged text (or keeps it). -/
theorem foldl_applyUpd_single (l : List Msg) (m : Msg) (us : List String) (h : us.length ≤ 1) :
    us.foldl (applyUpd true) (l ++ [m]) = l ++ [⟨m.role, us.headD m.content⟩] := by
  cases us with
  | nil => rfl
  | cons u us' =>
    cases us' with
    | nil =>
      show [u].foldl (applyUpd true) (l ++ [m]) = l ++ [⟨m.role, u⟩]
      show applyUpd true (l ++ [m]) u = l ++ [⟨m.role, u⟩]
      rw [applyUpd]
      simp only [Bool.true_and]
      rw [if_pos (by simp), updateLast_append]
    | cons u' us'' => simp at h

/-- The user-lookup base list of one `chat` call: a fresh conversation
starts empty; an explicitly referenced one starts at the stored list. -/
def chatBase (cid : Option String) (msgs0 : List Msg) : List Msg :=
  if cid.isNone then [] else msgs0

/-- `chat` with a live conversation reduces to the stream body prefixed
by the placeholder's `message_id` event, updates folded into the store. -/
theorem chatRun_conv_ok (doc : Document) (cid : Option String) (cE : Bool) (msgs0 : List Msg)
    (q : String) (rm em : Option String) (aid : String) (gw : GatewayResult) (m : String)
    (hq : q ≠ "") (hconv : cid = none ∨ cE = true) (hm : resolveModel rm em = some m) :
    chatRun (some doc) cid cE msgs0 q rm em aid gw =
      .stream (Event.messageId aid ::
          (streamChatResponse doc q gw (lastN 6 (chatBase cid msgs0 ++ [⟨"user", q⟩]))).events)
        ((streamChatResponse doc q gw (lastN 6 (chatBase cid msgs0 ++ [⟨"user", q⟩]))).updates.foldl
          (applyUpd true) ((chatBase cid msgs0 ++ [⟨"user", q⟩]) ++ [⟨"assistant", ""⟩])) := by
  have hq' : (q == "") = false := by simpa using hq
  have hcE : (cid.isNone || cE) = true := by
    rcases hconv with h | h
    · subst h; rfl
    · subst h; simp
  unfold chatRun
  rw [hq']
  simp only [Bool.false_eq_true, if_false, hcE, if_true, hm, chatBase, List.singleton_append]

/-- `chat` with a supplied but missing conversation id: the store is
untouched and no `message_id` event is prefixed. -/
theorem chatRun_conv_missing (doc : Document) (cidVal : String) (msgs0 : List Msg)
    (q : String) (rm em : Option String) (aid : String) (gw : GatewayResult) (m : String)
    (hq : q ≠ "") (hm : resolveModel rm em = some m) :
    chatRun (some doc) (some cidVal) false msgs0 q rm em aid gw =
      .stream (streamChatResponse doc q gw []).events msgs0 := by
  have hq' : (q == "") = false := by simpa using hq
  unfold chatRun
  rw [hq']
  simp only [Bool.false_eq_true, if_false, Option.isNone_some, Bool.or_self, hm]
  rw [foldl_applyUpd_false, List.nil_append]

/-! ## Claims -/

/-- C1, counterexample: a completed multi-document stream whose
accumulated text has no document reference, is no refusal, and is
longer than 20 characters — the claim requires the warning suffix to be
appended and emitted, but the multi-document path never runs the
grounding verifier: the persisted text is the bare accumulation and the
stream holds no warning token. -/
theorem c1_counterexample :
    hasDocumentReference "the sky is blue and pretty" = false ∧
    isRefusal "the sky is blue and pretty" = false ∧
    ("the sky is blue and pretty" : String).length > 20 ∧
    streamMultiChatResponse [⟨"Doc.pdf", "0123456789abc"⟩] "tell me about it"
        (.ok [some "the sky is blue and pretty"]) [] =
      ⟨[Event.token "the sky is blue and pretty", Event.done],
       ["the sky is blue and pretty"],
       some (multiPrompt [⟨"Doc.pdf", "0123456789abc"⟩] [] "tell me about it")⟩ := by
  exact ⟨by decide, by decide, by decide, rfl⟩

/-- C1 (amended): in the multi-document path no grounding verification
is applied to the completed stream: for every run that reaches
streaming and completes the Gateway stream, the emitted events are
exactly the optional exclusion notice, the relayed tokens, and `done`,
and the persisted text is exactly the exclusion prefix concatenated
with the accumulated tokens — no warning suffix is ever appended or
emitted, and the valid document names play no role after streaming. -/
theorem c1_multi_no_grounding (docs : List Document) (q : String) (hist : List Msg)
    (lines : List (Option String)) (hv : validDocs docs ≠ []) (hg : isGreeting q = false) :
    streamMultiChatResponse docs q (.ok lines) hist =
      ⟨multiPreEvents docs ++ (gwTokens lines).map Event.token ++ [.done],
       [multiPre docs ++ concatList (gwTokens lines)],
       some (multiPrompt (validDocs docs) hist q)⟩ := by
  unfold streamMultiChatResponse
  rw [if_neg (by simp [List.isEmpty_iff, hv]), if_neg (by simp [hg])]

theorem c1_multi_no_grounding_witness :
    validDocs [⟨"Doc.pdf", "0123456789abc"⟩] ≠ [] ∧
    isGreeting "tell me about it" = false ∧
    streamMultiChatResponse [⟨"Doc.pdf", "0123456789abc"⟩] "tell me about it"
        (.ok [some "the sky is blue and pretty"]) [] =
      ⟨multiPreEvents [⟨"Doc.pdf", "0123456789abc"⟩] ++
        (gwTokens [some "the sky is blue and pretty"]).map Event.token ++ [.done],
       [multiPre [⟨"Doc.pdf", "0123456789abc"⟩] ++
         concatList (gwTokens [some "the sky is blue and pretty"])],
       some (multiPrompt (validDocs [⟨"Doc.pdf", "0123456789abc"⟩]) [] "tell me about it")⟩ :=
  ⟨by decide, by decide,
   c1_multi_no_grounding [⟨"Doc.pdf", "0123456789abc"⟩] "tell me about it" []
     [some "the sky is blue and pretty"] (by decide) (by decide)⟩

/-- C3, counterexample: the claim's threshold counts non-whitespace
characters, but the code strips only leading/trailing whitespace: the
content "a        b" has 2 non-whitespace characters (fewer than 10),
yet its stripped length is 10, so the code does not refuse — it opens
a Gateway generate call and relays the model's tokens. -/
theorem c3_counterexample :
    (("a        b" : String).data.filter fun c => !(isWS c)).length < 10 ∧
    (streamChatResponse ⟨"doc.pdf", "a        b"⟩ "what is it"
        (.ok [some "ok"]) []).prompt.isSome = true ∧
    (streamChatResponse ⟨"doc.pdf", "a        b"⟩ "what is it"
        (.ok [some "ok"]) []).events ≠ [Event.token refusalMessage, Event.done] := by
  exact ⟨by decide, rfl, by decide⟩

/-- C3 (amended): for every single-document chat call on a document
whose content, after stripping leading and trailing whitespace, has
fewer than 10 characters, the stream body is exactly one token event
carrying the fixed refusal message followed by done, the refusal
message is persisted via update-last-message, and no Gateway generate
call is made. -/
theorem c3_short_content_refusal (doc : Document) (q : String) (gw : GatewayResult)
    (hist : List Msg) (h : (pyStrip doc.content).length < 10) :
    streamChatResponse doc q gw hist =
      ⟨[.token refusalMessage, .done], [refusalMessage], none⟩ := by
  unfold streamChatResponse
  rw [if_pos ((contentShort_iff doc.content).mpr h)]

theorem c3_short_content_refusal_witness :
    (pyStrip ("tiny" : String)).length < 10 ∧
    streamChatResponse ⟨"doc.pdf", "tiny"⟩ "what is it" (.ok [some "ok"]) [] =
      ⟨[.token refusalMessage, .done], [refusalMessage], none⟩ :=
  ⟨by decide,
   c3_short_content_refusal ⟨"doc.pdf", "tiny"⟩ "what is it" (.ok [some "ok"]) [] (by decide)⟩

/-- C4: for every chat call whose question is a greeting (stripped,
lowercased, equal to a fixed pattern optionally with a trailing "!")
and whose document(s) pass the content threshold, no Gateway call is
made, and the canned prompt-to-engage response is the single token
event, followed by done, and is persisted — on both the single- and
multi-document paths. -/
theorem c4_greeting_short_circuit (doc : Document) (docs : List Document) (q : String)
    (gw gw' : GatewayResult) (hist hist' : List Msg)
    (hg : isGreeting q = true) (hc : contentShort doc.content = false)
    (hv : validDocs docs ≠ []) :
    streamChatResponse doc q gw hist =
      ⟨[.token greetingResponse, .done], [greetingResponse], none⟩ ∧
    streamMultiChatResponse docs q gw' hist' =
      ⟨[.token (multiGreetingResponse (validDocs docs)), .done],
       [multiGreetingResponse (validDocs docs)], none⟩ := by
  constructor
  · unfold streamChatResponse
    rw [if_neg (by simp [hc]), if_pos hg]
  · unfold streamMultiChatResponse
    rw [if_neg (by simp [List.isEmpty_iff, hv]), if_pos hg]

theorem c4_greeting_short_circuit_witness :
    isGreeting " Hello! " = true ∧
    contentShort ("0123456789" : String) = false ∧
    validDocs [⟨"a.pdf", "0123456789"⟩] ≠ [] ∧
    (streamChatResponse ⟨"a.pdf", "0123456789"⟩ " Hello! " (.ok []) [] =
      ⟨[.token greetingResponse, .done], [greetingResponse], none⟩ ∧
    streamMultiChatResponse [⟨"a.pdf", "0123456789"⟩] " Hello! " (.ok []) [] =
      ⟨[.token (multiGreetingResponse (validDocs [⟨"a.pdf", "0123456789"⟩])), .done],
       [multiGreetingResponse (validDocs [⟨"a.pdf", "0123456789"⟩])], none⟩) :=
  ⟨by decide, by decide, by decide,
   c4_greeting_short_circuit ⟨"a.pdf", "0123456789"⟩ [⟨"a.pdf", "0123456789"⟩] " Hello! "
     (.ok []) (.ok []) [] [] (by decide) (by decide) (by decide)⟩

/-- C5, counterexample: with one valid and one below-threshold document
but a greeting question, the greeting short-circuit fires first: no
exclusion-notice token is emitted (the single token does not even
mention the excluded document's name) and no prompt is built. -/
theorem c5_counterexample :
    validDocs [⟨"Good.pdf", "0123456789abc"⟩, ⟨"Bad.pdf", "x"⟩] =
      [⟨"Good.pdf", "0123456789abc"⟩] ∧
    excludedDocs [⟨"Good.pdf", "0123456789abc"⟩, ⟨"Bad.pdf", "x"⟩] = [⟨"Bad.pdf", "x"⟩] ∧
    streamMultiChatResponse [⟨"Good.pdf", "0123456789abc"⟩, ⟨"Bad.pdf", "x"⟩] "hi"
        (.ok []) [] =
      ⟨[Event.token (multiGreetingResponse [⟨"Good.pdf", "0123456789abc"⟩]), Event.done],
       [multiGreetingResponse [⟨"Good.pdf", "0123456789abc"⟩]], none⟩ ∧
    strContains (multiGreetingResponse [⟨"Good.pdf", "0123456789abc"⟩]) "Bad.pdf" = false := by
  exact ⟨by decide, by decide, rfl, by decide⟩

/-- C5 (amended): for every multi-document chat call with at least one
valid and at least one below-threshold document, whose question is not
a greeting, the first emitted event is the exclusion-notice token, that
token's text contains each excluded document's name verbatim, and the
prompt handed to the Gateway is built from the valid documents only. -/
theorem c5_exclusion_notice (docs : List Document) (q : String) (gw : GatewayResult)
    (hist : List Msg) (hv : validDocs docs ≠ []) (he : excludedDocs docs ≠ [])
    (hg : isGreeting q = false) :
    (streamMultiChatResponse docs q gw hist).events.head? =
      some (.token (exclusionNotice (excludedDocs docs) (validDocs docs).length)) ∧
    (∀ d ∈ excludedDocs docs,
      strContains (exclusionNotice (excludedDocs docs) (validDocs docs).length) d.name = true) ∧
    (streamMultiChatResponse docs q gw hist).prompt =
      some (multiPrompt (validDocs docs) hist q) := by
  have hpre : multiPreEvents docs =
      [.token (exclusionNotice (excludedDocs docs) (validDocs docs).length)] := by
    unfold multiPreEvents
    rw [if_neg (by simp [List.isEmpty_iff, he])]
  refine ⟨?_, ?_, ?_⟩
  · unfold streamMultiChatResponse
    rw [if_neg (by simp [List.isEmpty_iff, hv]), if_neg (by simp [hg])]
    cases gw <;> simp [hpre]
  · intro d hd
    rw [strContains_iff]
    unfold containsSpec
    have h1 : d.name.data <:+: ("\"" ++ d.name ++ "\"").data :=
      ⟨("\"" : String).data, ("\"" : String).data, by simp [String.data_append]⟩
    have h2 : ("\"" ++ d.name ++ "\"") ∈
        (excludedDocs docs).map fun d => "\"" ++ d.name ++ "\"" :=
      List.mem_map_of_mem _ hd
    have h3 := mem_pyJoin_infix ", " _ _ h2
    have h4 : (pyJoin ", " ((excludedDocs docs).map fun d => "\"" ++ d.name ++ "\"")).data <:+:
        (exclusionNotice (excludedDocs docs) (validDocs docs).length).data := by
      refine ⟨("⚠️ Note: " ++ toString (excludedDocs docs).length ++
          " document(s) were excluded due to insufficient content: ").data,
        ("\n\nAnalyzing remaining " ++ toString (validDocs docs).length ++
          " document(s):\n\n").data, ?_⟩
      simp [exclusionNotice, String.data_append, List.append_assoc]
    exact (h1.trans h3).trans h4
  · unfold streamMultiChatResponse
    rw [if_neg (by simp [List.isEmpty_iff, hv]), if_neg (by simp [hg])]
    cases gw <;> rfl

theorem c5_exclusion_notice_witness :
    validDocs [⟨"Good.pdf", "0123456789abc"⟩, ⟨"Bad.pdf", "x"⟩] ≠ [] ∧
    excludedDocs [⟨"Good.pdf", "0123456789abc"⟩, ⟨"Bad.pdf", "x"⟩] ≠ [] ∧
    isGreeting "compare them" = false ∧
    ((streamMultiChatResponse [⟨"Good.pdf", "0123456789abc"⟩, ⟨"Bad.pdf", "x"⟩]
        "compare them" (.ok [some "Both differ."]) []).events.head? =
      some (.token (exclusionNotice
        (excludedDocs [⟨"Good.pdf", "0123456789abc"⟩, ⟨"Bad.pdf", "x"⟩])
        (validDocs [⟨"Good.pdf", "0123456789abc"⟩, ⟨"Bad.pdf", "x"⟩]).length)) ∧
    (∀ d ∈ excludedDocs [⟨"Good.pdf", "0123456789abc"⟩, ⟨"Bad.pdf", "x"⟩],
      strContains (exclusionNotice
        (excludedDocs [⟨"Good.pdf", "0123456789abc"⟩, ⟨"Bad.pdf", "x"⟩])
        (validDocs [⟨"Good.pdf", "0123456789abc"⟩, ⟨"Bad.pdf", "x"⟩]).length) d.name = true) ∧
    (streamMultiChatResponse [⟨"Good.pdf", "0123456789abc"⟩, ⟨"Bad.pdf", "x"⟩]
        "compare them" (.ok [some "Both differ."]) []).prompt =
      some (multiPrompt (validDocs [⟨"Good.pdf", "0123456789abc"⟩, ⟨"Bad.pdf", "x"⟩])
        [] "compare them")) :=
  ⟨by decide, by decide, by decide,
   c5_exclusion_notice [⟨"Good.pdf", "0123456789abc"⟩, ⟨"Bad.pdf", "x"⟩] "compare them"
     (.ok [some "Both differ."]) [] (by decide) (by decide) (by decide)⟩

/-- C10: in the single-document path the content validation precedes
the greeting check: a below-threshold document together with a greeting
question yields the refusal message (not the greeting response), it is
persisted, and no Gateway call is made. -/
theorem c10_content_check_precedes_greeting (doc : Document) (q : String) (gw : GatewayResult)
    (hist : List Msg) (h : (pyStrip doc.content).length < 10) (_hg : isGreeting q = true) :
    streamChatResponse doc q gw hist =
      ⟨[.token refusalMessage, .done], [refusalMessage], none⟩ := by
  unfold streamChatResponse
  rw [if_pos ((contentShort_iff doc.content).mpr h)]

theorem c10_content_check_precedes_greeting_witness :
    (pyStrip ("tiny" : String)).length < 10 ∧
    isGreeting "hi" = true ∧
    streamChatResponse ⟨"doc.pdf", "tiny"⟩ "hi" (.ok []) [] =
      ⟨[.token refusalMessage, .done], [refusalMessage], none⟩ :=
  ⟨by decide, by decide,
   c10_content_check_precedes_greeting ⟨"doc.pdf", "tiny"⟩ "hi" (.ok []) [] (by decide) (by decide)⟩

/-- C2: the single-document grounding verifier, characterized against
the spec's wording: `has_document_reference` holds iff the accumulated
text exceeds 50 characters and its lowercase form contains one of the
trigger phrases or the text matches the quoted-substring regex;
`is_refusal` holds iff the lowercase text contains one of the four
refusal phrases; and on a completed stream the fixed warning suffix is
appended to the persisted text and emitted as one extra token event
exactly when neither predicate holds and the text exceeds 20
characters. -/
theorem c2_single_grounding (doc : Document) (q : String) (hist : List Msg)
    (lines : List (Option String))
    (hc : contentShort doc.content = false) (hg : isGreeting q = false) :
    (hasDocumentReference (concatList (gwTokens lines)) = true ↔
      hdrSpec (concatList (gwTokens lines))) ∧
    (isRefusal (concatList (gwTokens lines)) = true ↔
      refusalSpec (concatList (gwTokens lines))) ∧
    (¬ hdrSpec (concatList (gwTokens lines)) ∧ ¬ refusalSpec (concatList (gwTokens lines)) ∧
        (concatList (gwTokens lines)).length > 20 →
      streamChatResponse doc q (.ok lines) hist =
        ⟨(gwTokens lines).map Event.token ++ [.token warningMessage, .done],
         [concatList (gwTokens lines) ++ warningMessage], some (singlePrompt doc hist q)⟩) ∧
    (hdrSpec (concatList (gwTokens lines)) ∨ refusalSpec (concatList (gwTokens lines)) ∨
        ¬ (concatList (gwTokens lines)).length > 20 →
      streamChatResponse doc q (.ok lines) hist =
        ⟨(gwTokens lines).map Event.token ++ [.done],
         [concatList (gwTokens lines)], some (singlePrompt doc hist q)⟩) := by
  refine ⟨hasDocumentReference_iff _, isRefusal_iff _, ?_, ?_⟩
  · rintro ⟨h1, h2, h3⟩
    have hb1 : hasDocumentReference (concatList (gwTokens lines)) = false :=
      Bool.eq_false_iff.mpr fun hh => h1 ((hasDocumentReference_iff _).mp hh)
    have hb2 : isRefusal (concatList (gwTokens lines)) = false :=
      Bool.eq_false_iff.mpr fun hh => h2 ((isRefusal_iff _).mp hh)
    have hb3 : decide ((concatList (gwTokens lines)).length > 20) = true := decide_eq_true h3
    unfold streamChatResponse
    rw [if_neg (by simp [hc]), if_neg (by simp [hg])]
    show (if !(hasDocumentReference (concatList (gwTokens lines))) &&
        !(isRefusal (concatList (gwTokens lines))) &&
        decide ((concatList (gwTokens lines)).length > 20) then
        (⟨(gwTokens lines).map Event.token ++ [.token warningMessage, .done],
          [concatList (gwTokens lines) ++ warningMessage],
          some (singlePrompt doc hist q)⟩ : ChatOutcome)
      else
        ⟨(gwTokens lines).map Event.token ++ [.done],
         [concatList (gwTokens lines)], some (singlePrompt doc hist q)⟩) = _
    simp [hb1, hb2, hb3]
  · intro hdisj
    have hcond : (!(hasDocumentReference (concatList (gwTokens lines))) &&
        !(isRefusal (concatList (gwTokens lines))) &&
        decide ((concatList (gwTokens lines)).length > 20)) = false := by
      rcases hdisj with h1 | h1 | h1
      · simp [(hasDocumentReference_iff _).mpr h1]
      · simp [(isRefusal_iff _).mpr h1]
      · simp [decide_eq_false h1]
    unfold streamChatResponse
    rw [if_neg (by simp [hc]), if_neg (by simp [hg])]
    show (if !(hasDocumentReference (concatList (gwTokens lines))) &&
        !(isRefusal (concatList (gwTokens lines))) &&
        decide ((concatList (gwTokens lines)).length > 20) then
        (⟨(gwTokens lines).map Event.token ++ [.token warningMessage, .done],
          [concatList (gwTokens lines) ++ warningMessage],
          some (singlePrompt doc hist q)⟩ : ChatOutcome)
      else
        ⟨(gwTokens lines).map Event.token ++ [.done],
         [concatList (gwTokens lines)], some (singlePrompt doc hist q)⟩) = _
    simp [hcond]

theorem c2_single_grounding_witness :
    contentShort ("0123456789" : String) = false ∧
    isGreeting "what is it" = false ∧
    ((hasDocumentReference (concatList (gwTokens [some "Hi."])) = true ↔
      hdrSpec (concatList (gwTokens [some "Hi."]))) ∧
    (isRefusal (concatList (gwTokens [some "Hi."])) = true ↔
      refusalSpec (concatList (gwTokens [some "Hi."]))) ∧
    (¬ hdrSpec (concatList (gwTokens [some "Hi."])) ∧
        ¬ refusalSpec (concatList (gwTokens [some "Hi."])) ∧
        (concatList (gwTokens [some "Hi."])).length > 20 →
      streamChatResponse ⟨"a.pdf", "0123456789"⟩ "what is it" (.ok [some "Hi."]) [] =
        ⟨(gwTokens [some "Hi."]).map Event.token ++ [.token warningMessage, .done],
         [concatList (gwTokens [some "Hi."]) ++ warningMessage],
         some (singlePrompt ⟨"a.pdf", "0123456789"⟩ [] "what is it")⟩) ∧
    (hdrSpec (concatList (gwTokens [some "Hi."])) ∨
        refusalSpec (concatList (gwTokens [some "Hi."])) ∨
        ¬ (concatList (gwTokens [some "Hi."])).length > 20 →
      streamChatResponse ⟨"a.pdf", "0123456789"⟩ "what is it" (.ok [some "Hi."]) [] =
        ⟨(gwTokens [some "Hi."]).map Event.token ++ [.done],
         [concatList (gwTokens [some "Hi."])],
         some (singlePrompt ⟨"a.pdf", "0123456789"⟩ [] "what is it")⟩)) :=
  ⟨by decide, by decide,
   c2_single_grounding ⟨"a.pdf", "0123456789"⟩ "what is it" [] [some "Hi."]
     (by decide) (by decide)⟩

/-- C7: a non-200 Gateway status or an exception mid-stream produces
exactly one error event (carrying the derived message) followed by the
terminal done; and on every path of both stream bodies the events end
with done, emitted exactly once. -/
theorem c7_gateway_errors (doc : Document) (docs : List Document) (q : String)
    (hist hist' : List Msg) (gw : GatewayResult) :
    ((streamChatResponse doc q gw hist).events.getLast? = some Event.done ∧
     (streamChatResponse doc q gw hist).events.countP Event.isDone = 1) ∧
    ((streamMultiChatResponse docs q gw hist').events.getLast? = some Event.done ∧
     (streamMultiChatResponse docs q gw hist').events.countP Event.isDone = 1) ∧
    (∀ code, gw = .badStatus code → contentShort doc.content = false → isGreeting q = false →
      (streamChatResponse doc q gw hist).events =
        [.error (streamErrMsg (ollamaApiError code)), .done]) ∧
    (∀ lines msg, gw = .failDuring lines msg → contentShort doc.content = false →
      isGreeting q = false →
      (streamChatResponse doc q gw hist).events =
        (gwTokens lines).map Event.token ++ [.error (streamErrMsg msg), .done]) := by
  refine ⟨single_done_terminal doc q gw hist, multi_done_terminal docs q gw hist', ?_, ?_⟩
  · rintro code rfl hcb hgb
    unfold streamChatResponse
    rw [if_neg (by simp [hcb]), if_neg (by simp [hgb])]
  · rintro lines msg rfl hcb hgb
    unfold streamChatResponse
    rw [if_neg (by simp [hcb]), if_neg (by simp [hgb])]

theorem c7_gateway_errors_witness :
    (streamChatResponse ⟨"a.pdf", "0123456789"⟩ "what is it" (.badStatus 500) []).events =
      [.error (streamErrMsg (ollamaApiError 500)), .done] :=
  (c7_gateway_errors ⟨"a.pdf", "0123456789"⟩ [] "what is it" [] [] (.badStatus 500)).2.2.1
    500 rfl (by decide) (by decide)

/-- `multi_chat` with a live conversation reduces to the stream body
prefixed by the placeholder's `message_id` event. -/
theorem multiChatRun_conv_ok (docLookups : List (Option Document)) (cid : Option String)
    (cE : Bool) (msgs0 : List Msg) (q : String) (rm em : Option String) (aid : String)
    (gw : GatewayResult) (m : String)
    (hq : q ≠ "") (hne : docLookups ≠ []) (hall : docLookups.any Option.isNone = false)
    (hconv : cid = none ∨ cE = true) (hm : resolveModel rm em = some m) :
    multiChatRun docLookups cid cE msgs0 q rm em aid gw =
      .stream (Event.messageId aid ::
          (streamMultiChatResponse (docLookups.filterMap id) q gw
            (lastN 6 (chatBase cid msgs0 ++ [⟨"user", q⟩]))).events)
        ((streamMultiChatResponse (docLookups.filterMap id) q gw
            (lastN 6 (chatBase cid msgs0 ++ [⟨"user", q⟩]))).updates.foldl
          (applyUpd true) ((chatBase cid msgs0 ++ [⟨"user", q⟩]) ++ [⟨"assistant", ""⟩])) := by
  have hq' : (q == "") = false := by simpa using hq
  have hne' : docLookups.isEmpty = false := by simp [List.isEmpty_iff, hne]
  have hcE : (cid.isNone || cE) = true := by
    rcases hconv with h | h
    · subst h; rfl
    · subst h; simp
  unfold multiChatRun
  rw [hq']
  simp only [Bool.false_eq_true, if_false, hne', hall, hcE, if_true, hm, chatBase,
    List.singleton_append]

/-- C6, counterexample: a chat call that returns a stream need not
start with a message_id event: when the supplied conversation id does
not exist in the store, `add_message` returns None, the message_id
event is skipped, and the stream violates the claimed shape. -/
theorem c6_counterexample :
    (chatRun (some ⟨"Doc.pdf", "0123456789abc"⟩) (some "missing-conv") false []
        "tell me about it" (some "llama3") none "m1" (.ok [some "An answer."])).statusOf =
      none ∧
    wellFormedStream ((chatRun (some ⟨"Doc.pdf", "0123456789abc"⟩) (some "missing-conv")
        false [] "tell me about it" (some "llama3") none "m1"
        (.ok [some "An answer."])).eventsOf) = false := by
  exact ⟨rfl, by decide⟩

/-- C6 (amended): for every chat call (single- or multi-document) that
returns a stream and whose referenced conversation exists (or was
freshly created because none was supplied), the event sequence is
exactly one message_id first, then zero or more tokens, then at most
one error, then exactly one terminal done; when the referenced
conversation is missing, only the leading message_id event is omitted. -/
theorem c6_event_ordering :
    (∀ (doc : Document) (cid : Option String) (cE : Bool) (msgs0 : List Msg) (q : String)
        (rm em : Option String) (aid : String) (gw : GatewayResult) (m : String),
      q ≠ "" → (cid = none ∨ cE = true) → resolveModel rm em = some m →
      ∃ evs fin, chatRun (some doc) cid cE msgs0 q rm em aid gw = .stream evs fin ∧
        wellFormedStream evs = true) ∧
    (∀ (docLookups : List (Option Document)) (cid : Option String) (cE : Bool)
        (msgs0 : List Msg) (q : String) (rm em : Option String) (aid : String)
        (gw : GatewayResult) (m : String),
      q ≠ "" → docLookups ≠ [] → docLookups.any Option.isNone = false →
      (cid = none ∨ cE = true) → resolveModel rm em = some m →
      ∃ evs fin, multiChatRun docLookups cid cE msgs0 q rm em aid gw = .stream evs fin ∧
        wellFormedStream evs = true) := by
  constructor
  · intro doc cid cE msgs0 q rm em aid gw m hq hconv hm
    have h := chatRun_conv_ok doc cid cE msgs0 q rm em aid gw m hq hconv hm
    have hw : wellFormedStream (Event.messageId aid ::
        (streamChatResponse doc q gw
          (lastN 6 (chatBase cid msgs0 ++ [⟨"user", q⟩]))).events) = true := by
      simp only [wellFormedStream]
      exact single_tokensThen doc q gw _
    exact ⟨_, _, h, hw⟩
  · intro docLookups cid cE msgs0 q rm em aid gw m hq hne hall hconv hm
    have h := multiChatRun_conv_ok docLookups cid cE msgs0 q rm em aid gw m hq hne hall hconv hm
    have hw : wellFormedStream (Event.messageId aid ::
        (streamMultiChatResponse (docLookups.filterMap id) q gw
          (lastN 6 (chatBase cid msgs0 ++ [⟨"user", q⟩]))).events) = true := by
      simp only [wellFormedStream]
      exact multi_tokensThen _ q gw _
    exact ⟨_, _, h, hw⟩

theorem c6_event_ordering_witness :
    (∃ evs fin, chatRun (some ⟨"a.pdf", "0123456789"⟩) none false [] "what is it"
        (some "llama3") none "m1" (.ok [some "Hello."]) = .stream evs fin ∧
      wellFormedStream evs = true) ∧
    (∃ evs fin, multiChatRun [some ⟨"a.pdf", "0123456789"⟩] none false [] "what is it"
        (some "llama3") none "m1" (.ok [some "Hello."]) = .stream evs fin ∧
      wellFormedStream evs = true) :=
  ⟨c6_event_ordering.1 ⟨"a.pdf", "0123456789"⟩ none false [] "what is it"
      (some "llama3") none "m1" (.ok [some "Hello."]) "llama3"
      (by decide) (Or.inl rfl) (by decide),
   c6_event_ordering.2 [some ⟨"a.pdf", "0123456789"⟩] none false [] "what is it"
      (some "llama3") none "m1" (.ok [some "Hello."]) "llama3"
      (by decide) (by decide) (by decide) (Or.inl rfl) (by decide)⟩

/-- C8, counterexample: a chat request with a conversationId absent
from the store does not fail with 404: the call returns a stream (no
pre-stream HTTP failure) and events are emitted. -/
theorem c8_counterexample :
    (chatRun (some ⟨"Doc.pdf", "0123456789abc"⟩) (some "missing-conv") false []
        "tell me about it" (some "llama3") none "m1"
        (.ok [some "An answer."])).statusOf = none ∧
    (chatRun (some ⟨"Doc.pdf", "0123456789abc"⟩) (some "missing-conv") false []
        "tell me about it" (some "llama3") none "m1"
        (.ok [some "An answer."])).eventsOf ≠ [] := by
  exact ⟨rfl, by decide⟩

/-- C8 (amended): a chat request carrying a conversationId that does
not exist is not rejected: the call proceeds to streaming (only a
missing question gives 400 and a missing document 404 pre-stream); the
stream carries the body events with no message_id event, and the store
is left untouched — both message appends and the final update are
no-ops on the missing conversation. -/
theorem c8_missing_conversation (doc : Document) (cidVal : String) (msgs0 : List Msg)
    (q : String) (rm em : Option String) (aid : String) (gw : GatewayResult) (m : String)
    (hq : q ≠ "") (hm : resolveModel rm em = some m) :
    chatRun (some doc) (some cidVal) false msgs0 q rm em aid gw =
      .stream (streamChatResponse doc q gw []).events msgs0 ∧
    (streamChatResponse doc q gw []).events.countP Event.isMsgId = 0 :=
  ⟨chatRun_conv_missing doc cidVal msgs0 q rm em aid gw m hq hm,
   single_no_msgId doc q gw []⟩

theorem c8_missing_conversation_witness :
    ("tell me about it" : String) ≠ "" ∧
    resolveModel (some "llama3") none = some "llama3" ∧
    (chatRun (some ⟨"Doc.pdf", "0123456789abc"⟩) (some "missing-conv") false
        [⟨"user", "old"⟩] "tell me about it" (some "llama3") none "m1"
        (.ok [some "An answer."]) =
      .stream (streamChatResponse ⟨"Doc.pdf", "0123456789abc"⟩ "tell me about it"
        (.ok [some "An answer."]) []).events [⟨"user", "old"⟩] ∧
    (streamChatResponse ⟨"Doc.pdf", "0123456789abc"⟩ "tell me about it"
        (.ok [some "An answer."]) []).events.countP Event.isMsgId = 0) :=
  ⟨by decide, by decide,
   c8_missing_conversation ⟨"Doc.pdf", "0123456789abc"⟩ "missing-conv" [⟨"user", "old"⟩]
     "tell me about it" (some "llama3") none "m1" (.ok [some "An answer."]) "llama3"
     (by decide) (by decide)⟩

/-- C9, counterexample: on the gateway-exception path the placeholder
is never updated: tokens were streamed ("partial answer") yet the
persisted assistant message keeps its empty content, and the update
log of the stream body is empty — the placeholder is mutated zero
times, not exactly once. -/
theorem c9_counterexample :
    chatRun (some ⟨"Doc.pdf", "0123456789abc"⟩) (some "conv1") true [] "tell me about it"
        (some "llama3") none "m1" (.failDuring [some "partial answer"] "boom") =
      .stream [.messageId "m1", .token "partial answer",
               .error (streamErrMsg "boom"), .done]
        [⟨"user", "tell me about it"⟩, ⟨"assistant", ""⟩] ∧
    (streamChatResponse ⟨"Doc.pdf", "0123456789abc"⟩ "tell me about it"
        (.failDuring [some "partial answer"] "boom")
        [⟨"user", "tell me about it"⟩]).updates = [] := by
  exact ⟨by decide, by decide⟩

/-- C9 (amended): within one chat turn on an existing (or freshly
created) conversation, the user message with the literal question is
appended before the assistant placeholder; the placeholder's content
ends as the head of the update-last-message log; that log has at most
one entry, holding exactly one entry on refusal, greeting and
completed-stream paths and none exactly on gateway-error paths (where
the placeholder keeps its empty content). -/
theorem c9_message_lifecycle (doc : Document) (cid : Option String) (cE : Bool)
    (msgs0 : List Msg) (q : String) (rm em : Option String) (aid : String)
    (gw : GatewayResult) (m : String)
    (hq : q ≠ "") (hconv : cid = none ∨ cE = true) (hm : resolveModel rm em = some m) :
    chatRun (some doc) cid cE msgs0 q rm em aid gw =
      .stream (Event.messageId aid ::
          (streamChatResponse doc q gw (lastN 6 (chatBase cid msgs0 ++ [⟨"user", q⟩]))).events)
        (chatBase cid msgs0 ++ [⟨"user", q⟩,
          ⟨"assistant",
            (streamChatResponse doc q gw
              (lastN 6 (chatBase cid msgs0 ++ [⟨"user", q⟩]))).updates.headD ""⟩]) ∧
    (streamChatResponse doc q gw
      (lastN 6 (chatBase cid msgs0 ++ [⟨"user", q⟩]))).updates.length ≤ 1 ∧
    ((streamChatResponse doc q gw
        (lastN 6 (chatBase cid msgs0 ++ [⟨"user", q⟩]))).updates = [] ↔
      contentShort doc.content = false ∧ isGreeting q = false ∧ gwFails gw = true) := by
  refine ⟨?_, single_updates_len doc q gw _, single_updates_nil_iff doc q gw _⟩
  rw [chatRun_conv_ok doc cid cE msgs0 q rm em aid gw m hq hconv hm]
  rw [foldl_applyUpd_single _ _ _ (single_updates_len doc q gw _)]
  simp [List.append_assoc]

theorem c9_message_lifecycle_witness :
    ("hello" : String) ≠ "" ∧
    resolveModel (some "llama3") none = some "llama3" ∧
    (chatRun (some ⟨"Doc.pdf", "0123456789abc"⟩) none true [] "hello"
        (some "llama3") none "m1" (.ok []) =
      .stream (Event.messageId "m1" ::
          (streamChatResponse ⟨"Doc.pdf", "0123456789abc"⟩ "hello" (.ok [])
            (lastN 6 (chatBase none [] ++ [⟨"user", "hello"⟩]))).events)
        (chatBase none [] ++ [⟨"user", "hello"⟩,
          ⟨"assistant",
            (streamChatResponse ⟨"Doc.pdf", "0123456789abc"⟩ "hello" (.ok [])
              (lastN 6 (chatBase none [] ++ [⟨"user", "hello"⟩]))).updates.headD ""⟩]) ∧
    (streamChatResponse ⟨"Doc.pdf", "0123456789abc"⟩ "hello" (.ok [])
      (lastN 6 (chatBase none [] ++ [⟨"user", "hello"⟩]))).updates.length ≤ 1 ∧
    ((streamChatResponse ⟨"Doc.pdf", "0123456789abc"⟩ "hello" (.ok [])
        (lastN 6 (chatBase none [] ++ [⟨"user", "hello"⟩]))).updates = [] ↔
      contentShort ("0123456789abc" : String) = false ∧ isGreeting "hello" = false ∧
        gwFails (.ok []) = true)) :=
  ⟨by decide, by decide,
   c9_message_lifecycle ⟨"Doc.pdf", "0123456789abc"⟩ none true [] "hello"
     (some "llama3") none "m1" (.ok []) "llama3" (by decide) (Or.inl rfl) (by decide)⟩
